import Mathlib

/-!
# Verification of the pymirror-bambulab state-coordination layer

Shallow embedding of the stateful core of `src/bambudisplay.py` and
`src/remiapp.py`:

* the print-job tracker embedded in `BambuDisplay.draw`
  (lines 315-336 of `bambudisplay.py`),
* the background cover-download worker `bambu_download_cover_thread`
  (lines 93-104 of `bambudisplay.py`),
* the cloud-auth state machine of `MyApp` in `remiapp.py`
  (`set_cloud_state`, `update_cloud_state`, the button handlers),
* the display-side refresh `BambuDisplay.update_cloud_state`
  (lines 172-186 of `bambudisplay.py`).

External collaborators (pybambu cloud client, pygame, remi widgets) are
modelled by their observable outcomes: each network call is replaced by an
explicit outcome value (success payload / typed error), and each handler
becomes a pure function from that outcome and the pre-state to the
post-state plus the side-effect flags the code triggers.
Timestamps, tokens and file names are abstracted to `Nat`.
-/

/-! ## Print-job tracker (BambuDisplay.draw, lines 315-336) -/

/-- The terminal gcode states of line 317/327:
`("IDLE", "FINISH", "FAILED")`. -/
def terminal_states : List String := ["IDLE", "FINISH", "FAILED"]

/-- The fields of `device.print_job` the tracker reads: `gcode_state`
(line 317/327) and `start_time` (lines 325-326, 333-336).
`start_time` is optional: the first snapshots of a job may omit it. -/
structure PrintJobDesc where
  gcode_state : String
  start_time : Option Nat
deriving DecidableEq, Repr

/-- The descriptor test of line 317, as one boolean:
`device.print_job is not None and device.print_job.gcode_state not in
("IDLE", "FINISH", "FAILED")`.  The test on line 327,
`device.print_job is None or device.print_job.gcode_state in (...)`, is its
negation. -/
def job_active : Option PrintJobDesc → Bool
  | none => false
  | some d => !(terminal_states.contains d.gcode_state)

/-- The `BambuDisplay` attributes mutated by the job-tracking section of
`draw` and by the cover worker: `_print_job`, `_first_print_job_start`,
`_print_job_start`, `_cover_downloaded`, `_cover_image`, `_cover_fname`.
The pygame surface `_cover_image` and the file name `_cover_fname` are
abstracted to `Option Nat` handles. -/
structure TrackerState where
  print_job : Option PrintJobDesc
  first_print_job_start : Option Nat
  print_job_start : Option Nat
  cover_downloaded : Bool
  cover_image : Option Nat
  cover_fname : Option Nat
deriving DecidableEq, Repr

/-- The attribute values established by `BambuDisplay.__init__`
(lines 115-116, 135-138): no tracked job, no recorded start times, cover
not downloaded, no cover image or file. -/
def initial_tracker : TrackerState :=
  { print_job := none
    first_print_job_start := none
    print_job_start := none
    cover_downloaded := false
    cover_image := none
    cover_fname := none }

/-- The job lifecycle transitions logged at lines 318 (`New print job
started`) and 328 (`Print job ended`). -/
inductive JobEvent where
  | started
  | ended
deriving DecidableEq, Repr

/-- One tick of the tracker: the resulting attribute state, the lifecycle
event of lines 317-331 (if any), whether a cover-download thread was
spawned (lines 320-324), and whether evaluating line 333 raised an
`AttributeError` (`device.print_job.start_time` with `device.print_job`
absent; the state mutations of the earlier lines have already happened
when that line runs). -/
structure StepOut where
  state : TrackerState
  event : Option JobEvent
  spawned : Bool
  crashed : Bool
deriving DecidableEq, Repr

/-- The job-tracking section of `BambuDisplay.draw`
(`src/bambudisplay.py` lines 315-336), one poll tick.  `now` stands for
`datetime.datetime.now()` on line 326 and `dpj` for `device.print_job`.

* Line 317 (`started`): no tracked job and the snapshot is active
  (descriptor present, gcode state non-terminal) — adopt the descriptor,
  clear `_cover_image` and spawn the download thread when
  `_cover_downloaded` is unset (lines 320-324), record
  `_first_print_job_start := snapshot start time` (line 325, may be
  absent) and `_print_job_start := snapshot start time or now`
  (line 326; `x if x else now()` maps to `Option.getD`).
* Line 327 (`ended`): a job is tracked and the snapshot is not active —
  reset `_cover_downloaded` and `_cover_image`, drop `_print_job` and
  `_print_job_start` (lines 329-331).  `_first_print_job_start` is NOT
  cleared here.
* Lines 333-336 (backfill, runs after either branch): when
  `_first_print_job_start` is still `None` and the snapshot start time is
  present, copy it into both `_first_print_job_start` and
  `_print_job_start`.  When the descriptor itself is absent, evaluating
  `device.print_job.start_time` raises (`crashed`); the `and` operator
  short-circuits, so this is only reached with
  `_first_print_job_start is None`. -/
def draw_track_job (now : Nat) (s : TrackerState) (dpj : Option PrintJobDesc) : StepOut :=
  let started := s.print_job.isNone && job_active dpj
  let ended := s.print_job.isSome && !(job_active dpj)
  let evt : Option JobEvent :=
    if started then some .started else if ended then some .ended else none
  let spawned := started && !s.cover_downloaded
  let s1 : TrackerState :=
    if started then
      { s with
        print_job := dpj
        cover_image := if s.cover_downloaded then s.cover_image else none
        first_print_job_start := dpj.bind PrintJobDesc.start_time
        print_job_start := some ((dpj.bind PrintJobDesc.start_time).getD now) }
    else if ended then
      { s with
        cover_downloaded := false
        cover_image := none
        print_job := none
        print_job_start := none }
    else s
  if s1.first_print_job_start.isNone then
    match dpj with
    | none => { state := s1, event := evt, spawned := spawned, crashed := true }
    | some d =>
      match d.start_time with
      | some t =>
        { state :=
            { s1 with first_print_job_start := some t, print_job_start := some t }
          event := evt, spawned := spawned, crashed := false }
      | none => { state := s1, event := evt, spawned := spawned, crashed := false }
  else { state := s1, event := evt, spawned := spawned, crashed := false }

/-- Feed a sequence of `(now, device.print_job)` ticks to the tracker,
collecting the output of every tick. -/
def run_tracker : TrackerState → List (Nat × Option PrintJobDesc) → List StepOut
  | _, [] => []
  | s, (now, dpj) :: rest =>
    let o := draw_track_job now s dpj
    o :: run_tracker o.state rest

/-- Reference edge detector for the claimed event discipline: given the
activity bit of the snapshot before the window (`prev`), emit `started`
exactly on a rising edge of activity and `ended` exactly on a falling
edge — i.e. exactly one `started` per contiguous active run and exactly
one `ended` per transition out of an active run, however often a
snapshot is replayed inside a run. -/
def edge_events (prev : Bool) : List Bool → List (Option JobEvent)
  | [] => []
  | a :: rest =>
    (if a && !prev then some .started
     else if !a && prev then some .ended
     else none) :: edge_events a rest

/-! ## Cover-download worker (bambu_download_cover_thread, lines 93-104) -/

/-- Outcome of the network and file steps of the worker body (lines 96-99):
either the cover bytes were fetched and written to a fresh file name, or
some step raised (descriptor fetch, download, or file write — the
`except Exception` on line 103 does not distinguish them). -/
inductive CoverFetchResult where
  | ok (fname : Nat)
  | error
deriving DecidableEq, Repr

/-- `bambu_download_cover_thread` (`src/bambudisplay.py` lines 93-104),
reduced to its effect on the shared `BambuDisplay` state.  On success it
publishes `_cover_fname` then sets `_cover_downloaded = True`
(lines 101-102) — with no check that the job that spawned it still
exists.  On any exception the `except` block only logs (line 104): the
published fields are untouched and nothing propagates out of the
thread. -/
def bambu_download_cover_thread (r : CoverFetchResult) (s : TrackerState) : TrackerState :=
  match r with
  | .ok fname => { s with cover_fname := some fname, cover_downloaded := true }
  | .error => s

/-- Interleaving of the render loop and the worker thread: a render tick
(running the job-tracking section of `draw`) or the completion of a
cover-download thread. -/
inductive SysAction where
  | tick (now : Nat) (dpj : Option PrintJobDesc)
  | coverDone (r : CoverFetchResult)
deriving Repr

/-- One interleaved step on the shared `BambuDisplay` state. -/
def sysStep (s : TrackerState) : SysAction → TrackerState
  | .tick now dpj => (draw_track_job now s dpj).state
  | .coverDone r => bambu_download_cover_thread r s

/-- Run an interleaved schedule of render ticks and worker completions. -/
def sysRun (s : TrackerState) (acts : List SysAction) : TrackerState :=
  acts.foldl sysStep s

/-! ## Cloud auth state machine (remiapp.py) -/

/-- `CloudState` enum of `src/remiapp.py` lines 30-36. -/
inductive CloudState where
  | UNKNOWN
  | LOGGED_OUT
  | CODE_SENT
  | LOGGING_IN
  | LOGGED_IN
  | BLOCKED
deriving DecidableEq, Repr

/-- The mutable state the `MyApp` handlers touch: `self.cloud_state`, the
display-side flag `self.bambu_display._cloud_connected`, the contents of
the token file at `self.bambu_display._token_path` (abstracted to an
optional `Nat` token, `none` = file absent), and the text of
`self.top_label`. -/
structure MyAppState where
  cloud_state : CloudState
  cloud_connected : Bool
  token_file : Option Nat
  top_label : String
deriving DecidableEq, Repr

namespace MyApp

/-- Line 56 of `MyApp.set_cloud_state` alone
(`self.cloud_state = new_state`): the state a concurrent reader observes
between the two assignments of `set_cloud_state`. -/
def set_cloud_state_line56 (s : MyAppState) (new_state : CloudState) : MyAppState :=
  { s with cloud_state := new_state }

/-- `MyApp.set_cloud_state` (`src/remiapp.py` lines 54-57): assign
`cloud_state`, then assign
`bambu_display._cloud_connected = (self.cloud_state == CloudState.LOGGED_IN)`.
Two separate Python statements with no lock. -/
def set_cloud_state (s : MyAppState) (new_state : CloudState) : MyAppState :=
  let s1 := set_cloud_state_line56 s new_state
  { s1 with cloud_connected := decide (s1.cloud_state = CloudState.LOGGED_IN) }

/-- The `top_label` text `MyApp.update_ui` (lines 78-105) selects for each
state. -/
def update_ui_label : CloudState → String
  | .UNKNOWN => "Unknown state"
  | .LOGGED_OUT => "Logged out"
  | .CODE_SENT => "Enter authentication code"
  | .LOGGING_IN => "Logging in"
  | .LOGGED_IN => "Logged in"
  | .BLOCKED => "Blocked by CloudFlare"

/-- `MyApp.update_ui` restricted to the state it mutates that the claims
mention: every arm of its `match` overwrites `top_label` with the text
for the current `cloud_state`. -/
def update_ui (s : MyAppState) : MyAppState :=
  { s with top_label := update_ui_label s.cloud_state }

/-- Outcome of `self.cloud.get_device_list()` (line 64): a returned value
(`None` or a device list, devices abstracted to `Nat` ids), a raised
`ValueError` (the only exception the handler catches; pybambu uses it
for auth rejection, and JSON parse errors subclass it), or any other
exception (network errors), which no `except` clause catches. -/
inductive DeviceListResult where
  | ok (devices : Option (List Nat))
  | valueError
  | otherError
deriving DecidableEq, Repr

/-- Result of a refresh: the final state, and whether an uncaught
exception propagated out of `update_cloud_state`. -/
structure RefreshOut where
  state : MyAppState
  propagated : Bool
deriving DecidableEq, Repr

/-- Line 61 of `MyApp.update_cloud_state` alone:
`self.set_cloud_state(CloudState.UNKNOWN)`, executed before the device
lookup on every refresh. -/
def update_cloud_state_line61 (s : MyAppState) : MyAppState :=
  set_cloud_state s .UNKNOWN

/-- Lines 63-76 of `MyApp.update_cloud_state`: the device lookup and the
branches on its outcome.  `ValueError` → LOGGED_OUT (line 66); result
`None` → LOGGED_OUT (line 70); any returned list — line 73 runs before
the `len(devices) > 0` check, which only builds an unused log string —
→ LOGGED_IN; any other exception propagates, leaving the state as
line 61 made it. -/
def update_cloud_state_lookup (s : MyAppState) (r : DeviceListResult) : RefreshOut :=
  match r with
  | .valueError => { state := set_cloud_state s .LOGGED_OUT, propagated := false }
  | .ok none => { state := set_cloud_state s .LOGGED_OUT, propagated := false }
  | .ok (some _devs) => { state := set_cloud_state s .LOGGED_IN, propagated := false }
  | .otherError => { state := s, propagated := true }

/-- `MyApp.update_cloud_state` (`src/remiapp.py` lines 59-76): set the
state to UNKNOWN, then perform the device lookup and branch on its
outcome. -/
def update_cloud_state (s : MyAppState) (r : DeviceListResult) : RefreshOut :=
  update_cloud_state_lookup (update_cloud_state_line61 s) r

/-- Result of a handler call: the final state, plus whether the handler
requested a fresh email verification code
(`_get_email_verification_code`). -/
structure HandlerOut where
  state : MyAppState
  code_requested : Bool
deriving DecidableEq, Repr

/-- Outcome of `self.cloud.login(region, email, password)` (line 145):
success, `CloudflareError`, or `EmailCodeRequiredError` — the two typed
errors lines 146-152 catch. -/
inductive LoginResult where
  | ok
  | cloudflareError
  | emailCodeRequiredError
deriving DecidableEq, Repr

/-- `MyApp.login_button_pressed` (`src/remiapp.py` lines 139-153).  On a
successful `login` call the `try` block simply falls through: no
`set_cloud_state` runs, only the trailing `update_ui()`.
`CloudflareError` → BLOCKED; `EmailCodeRequiredError` → request a code,
then CODE_SENT.  Every path ends in `update_ui()`. -/
def login_button_pressed (r : LoginResult) (s : MyAppState) : HandlerOut :=
  match r with
  | .ok => { state := update_ui s, code_requested := false }
  | .cloudflareError =>
    { state := update_ui (set_cloud_state s .BLOCKED), code_requested := false }
  | .emailCodeRequiredError =>
    { state := update_ui (set_cloud_state s .CODE_SENT), code_requested := true }

/-- Outcome of `self.cloud.login_with_verification_code(code)`
(line 172): success (exposing `self.cloud._auth_token`, abstracted to a
`Nat`), or one of the three caught errors: `EmailCodeExpiredError`,
`ValueError`, `EmailCodeIncorrectError` (lines 178-187). -/
inductive VerifyResult where
  | ok (token : Nat)
  | emailCodeExpiredError
  | valueError
  | emailCodeIncorrectError
deriving DecidableEq, Repr

/-- `MyApp.enter_code_button_pressed` (`src/remiapp.py` lines 165-188).
First `set_cloud_state(LOGGING_IN)` and `update_ui()` (lines 167-168);
then the verification call:

* success: write the token to the token file (lines 175-176), then
  LOGGED_IN;
* `EmailCodeExpiredError`: request a new code, then CODE_SENT;
* `ValueError`: set the label, request a new code, then CODE_SENT;
* `EmailCodeIncorrectError`: only `self.top_label.set_text("Incorrect
  code, try again")` — no `set_cloud_state` call, so the state stays
  LOGGING_IN.

Every path ends in `update_ui()` (line 188), which overwrites
`top_label` with the text for the current state. -/
def enter_code_button_pressed (r : VerifyResult) (s : MyAppState) : HandlerOut :=
  let s0 := update_ui (set_cloud_state s .LOGGING_IN)
  match r with
  | .ok token =>
    { state := update_ui (set_cloud_state { s0 with token_file := some token } .LOGGED_IN)
      code_requested := false }
  | .emailCodeExpiredError =>
    { state := update_ui (set_cloud_state s0 .CODE_SENT), code_requested := true }
  | .valueError =>
    { state :=
        update_ui
          (set_cloud_state
            { s0 with top_label := "Failed to verify code, requested new" } .CODE_SENT)
      code_requested := true }
  | .emailCodeIncorrectError =>
    { state := update_ui { s0 with top_label := "Incorrect code, try again" }
      code_requested := false }

/-- `MyApp.logout_button_pressed` (lines 155-158). -/
def logout_button_pressed (s : MyAppState) : MyAppState :=
  update_ui (set_cloud_state s .LOGGED_OUT)

end MyApp

namespace BambuDisplay

/-- `BambuDisplay.update_cloud_state` (`src/bambudisplay.py` lines
172-186), the display-side refresh.  It sets `_cloud_connected = False`
up front (line 174), then: `ValueError` → stays `False`; result `None`
→ stays `False`; a returned list → `True` only when `len(devices) > 0`
(lines 184-185); any other exception propagates with the flag already
`False`.  Returns `(_cloud_connected, exception propagated)`. -/
def update_cloud_state (r : MyApp.DeviceListResult) : Bool × Bool :=
  match r with
  | .valueError => (false, false)
  | .ok none => (false, false)
  | .ok (some devs) => (decide (devs.length > 0), false)
  | .otherError => (false, true)

end BambuDisplay

/-! ## Theorems -/

/-- Helper: one tick of the tracker, characterised: the emitted event is
exactly the rising/falling edge of the activity bit against the
job-presence bit, afterwards a job is tracked exactly when the snapshot
was active, and a download thread is spawned exactly when a job started
with `_cover_downloaded` unset. -/
theorem draw_track_job_core (now : Nat) (s : TrackerState) (dpj : Option PrintJobDesc) :
    ((draw_track_job now s dpj).event
        = (if job_active dpj && !s.print_job.isSome then some JobEvent.started
           else if !(job_active dpj) && s.print_job.isSome then some JobEvent.ended
           else none))
    ∧ (draw_track_job now s dpj).state.print_job.isSome = job_active dpj
    ∧ ((draw_track_job now s dpj).spawned
        = ((s.print_job.isNone && job_active dpj) && !s.cover_downloaded)) := by
  rcases dpj with _ | d
  · rcases hpj : s.print_job with _ | j <;>
      rcases hfst : s.first_print_job_start with _ | t0 <;>
        simp [draw_track_job, job_active, hpj, hfst]
  · by_cases hterm : d.gcode_state ∈ terminal_states <;>
      rcases hpj : s.print_job with _ | j <;>
        rcases hst : d.start_time with _ | t <;>
          rcases hfst : s.first_print_job_start with _ | t0 <;>
            simp [draw_track_job, job_active, hpj, hterm, hst, hfst]

/-- Helper: over a whole tick sequence, the emitted events are the edge
detector of the activity sequence (seeded with the job-presence bit of
the start state), and after each tick a job is tracked exactly when that
tick was active. -/
theorem run_tracker_spec (ticks : List (Nat × Option PrintJobDesc)) :
    ∀ s : TrackerState,
      (run_tracker s ticks).map StepOut.event
          = edge_events s.print_job.isSome (ticks.map fun t => job_active t.2)
      ∧ (run_tracker s ticks).map (fun o => o.state.print_job.isSome)
          = ticks.map fun t => job_active t.2 := by
  induction ticks with
  | nil => intro s; exact ⟨rfl, rfl⟩
  | cons t rest ih =>
    intro s
    obtain ⟨now, dpj⟩ := t
    obtain ⟨h1, h2, -⟩ := draw_track_job_core now s dpj
    have ihr := ih (draw_track_job now s dpj).state
    refine ⟨?_, ?_⟩
    · simpa [run_tracker, edge_events, h1, h2, Bool.and_comm] using ihr.1
    · simpa [run_tracker, h2] using ihr.2

/-- C1: feeding any sequence of device snapshots tick-by-tick to the job
tracker (the job-tracking section of `BambuDisplay.draw`) starting from
the freshly initialised display, (a) the emitted `JobStarted`/`JobEnded`
events are exactly the rising/falling edges of the snapshot-activity
sequence — so exactly one `JobStarted` per contiguous run of active
snapshots (gcode state outside `{IDLE, FINISH, FAILED}` with a job
descriptor present) and exactly one `JobEnded` per transition out of
such a run, however many identical snapshots are replayed inside a
run — and (b) after each tick a tracked `PrintJob` exists if and only
if the most recent snapshot is active. -/
theorem c1_job_lifecycle (ticks : List (Nat × Option PrintJobDesc)) :
    (run_tracker initial_tracker ticks).map StepOut.event
        = edge_events false (ticks.map fun t => job_active t.2)
    ∧ (run_tracker initial_tracker ticks).map (fun o => o.state.print_job.isSome)
        = ticks.map fun t => job_active t.2 := by
  simpa [initial_tracker] using run_tracker_spec ticks initial_tracker

/-- C7: given two consecutive snapshots during an active run — a
`PrintJob` is already tracked, `_first_print_job_start` is still absent,
and the new snapshot (still active) now carries `start_time = T` —
the tick backfills both `_first_print_job_start` and `_print_job_start`
to `T`, keeps the tracked job, and emits neither `JobStarted` nor
`JobEnded` (and spawns no download). -/
theorem c7_backfill (now T : Nat) (s : TrackerState) (j d : PrintJobDesc)
    (h1 : s.print_job = some j) (h2 : s.first_print_job_start = none)
    (h3 : d.gcode_state ∉ terminal_states) (h4 : d.start_time = some T) :
    (draw_track_job now s (some d)).state.first_print_job_start = some T
    ∧ (draw_track_job now s (some d)).state.print_job_start = some T
    ∧ (draw_track_job now s (some d)).state.print_job = some j
    ∧ (draw_track_job now s (some d)).event = none
    ∧ (draw_track_job now s (some d)).spawned = false := by
  simp [draw_track_job, job_active, h1, h2, h3, h4]

/-- Witness for C7: a concrete tracked job whose first snapshots lacked a
start time, receiving a snapshot with `start_time = 55`. -/
theorem c7_backfill_witness :
    (draw_track_job 9
        { print_job := some { gcode_state := "RUNNING", start_time := none }
          first_print_job_start := none
          print_job_start := some 0
          cover_downloaded := false
          cover_image := none
          cover_fname := none }
        (some { gcode_state := "RUNNING", start_time := some 55 })).state.first_print_job_start
      = some 55 :=
  (c7_backfill 9 55
    { print_job := some { gcode_state := "RUNNING", start_time := none }
      first_print_job_start := none
      print_job_start := some 0
      cover_downloaded := false
      cover_image := none
      cover_fname := none }
    { gcode_state := "RUNNING", start_time := none }
    { gcode_state := "RUNNING", start_time := some 55 }
    rfl rfl (by decide) rfl).1

/-- Counterexample to C8 as stated: there is no job-generation check in
`bambu_download_cover_thread`.  Concrete interleaving: tick 0 starts a
job (spawning the cover download), tick 1 ends it (`FINISH`), and then
the stale download completes — and it DOES set the published cover
fields (`_cover_downloaded = True`, `_cover_fname`) although no job
exists any more. -/
theorem c8_counterexample :
    (sysRun initial_tracker
        [SysAction.tick 0 (some { gcode_state := "RUNNING", start_time := some 100 }),
         SysAction.tick 1 (some { gcode_state := "FINISH", start_time := some 100 }),
         SysAction.coverDone (CoverFetchResult.ok 42)]).cover_downloaded = true
    ∧ (sysRun initial_tracker
        [SysAction.tick 0 (some { gcode_state := "RUNNING", start_time := some 100 }),
         SysAction.tick 1 (some { gcode_state := "FINISH", start_time := some 100 }),
         SysAction.coverDone (CoverFetchResult.ok 42)]).cover_fname = some 42
    ∧ (sysRun initial_tracker
        [SysAction.tick 0 (some { gcode_state := "RUNNING", start_time := some 100 }),
         SysAction.tick 1 (some { gcode_state := "FINISH", start_time := some 100 }),
         SysAction.coverDone (CoverFetchResult.ok 42)]).print_job = none := by
  decide

/-- C8 (amended): a `JobEnded` while a cover fetch is in flight does not
cancel the fetch, but its result is NOT discarded: the worker publishes
`_cover_fname` and `_cover_downloaded = True` unconditionally on success,
with no job-generation check, whatever the tracker state has become.
A download is spawned only on a `JobStarted` tick with
`_cover_downloaded` unset, so the cover machinery does not re-enter the
downloading state during one and the same job. -/
theorem c8_no_generation_guard :
    (∀ (s : TrackerState) (f : Nat),
        bambu_download_cover_thread (.ok f) s
          = { s with cover_fname := some f, cover_downloaded := true })
    ∧ (∀ (now : Nat) (s : TrackerState) (dpj : Option PrintJobDesc),
        (draw_track_job now s dpj).spawned
          = ((s.print_job.isNone && job_active dpj) && !s.cover_downloaded)) :=
  ⟨fun _ _ => rfl, fun now s dpj => (draw_track_job_core now s dpj).2.2⟩

/-- C9: every error in the cover-download worker (descriptor fetch,
download, or file write) is absorbed by the `except` block — the worker
is a total function of the outcome, nothing propagates out of the
thread — and on error the shared state is untouched: in particular
`_cover_downloaded` is never set for that job.  Moreover no retry is
attempted for the same job: while a job is tracked, no tick spawns
another download thread. -/
theorem c9_cover_error_handling :
    (∀ s : TrackerState, bambu_download_cover_thread .error s = s)
    ∧ (∀ (now : Nat) (s : TrackerState) (dpj : Option PrintJobDesc),
        s.print_job.isSome = true → (draw_track_job now s dpj).spawned = false) := by
  refine ⟨fun s => rfl, fun now s dpj h => ?_⟩
  rw [(draw_track_job_core now s dpj).2.2]
  simp [Option.isNone_iff_eq_none]
  intro hnone
  rw [hnone] at h
  simp at h

/-- Witness for C9: the worker error path on the initial state, and a
tick on a state with a tracked job spawning nothing. -/
theorem c9_cover_error_handling_witness :
    bambu_download_cover_thread .error initial_tracker = initial_tracker
    ∧ (draw_track_job 3
        { print_job := some { gcode_state := "RUNNING", start_time := some 1 }
          first_print_job_start := some 1
          print_job_start := some 1
          cover_downloaded := false
          cover_image := none
          cover_fname := none }
        (some { gcode_state := "RUNNING", start_time := some 1 })).spawned = false :=
  ⟨c9_cover_error_handling.1 initial_tracker,
   c9_cover_error_handling.2 3
    { print_job := some { gcode_state := "RUNNING", start_time := some 1 }
      first_print_job_start := some 1
      print_job_start := some 1
      cover_downloaded := false
      cover_image := none
      cover_fname := none }
    (some { gcode_state := "RUNNING", start_time := some 1 }) rfl⟩

/-- Counterexample to C2 as stated: a device-list lookup that returns an
EMPTY list.  The claim requires LOGGED_OUT on an empty result, but
`MyApp.update_cloud_state` only tests the result against `None`
(line 69) — any returned list, empty included, reaches the `else` branch
of line 73 and sets LOGGED_IN (the `len(devices) > 0` test on line 75
only guards a log string). -/
theorem c2_counterexample :
    (MyApp.update_cloud_state
        { cloud_state := .LOGGED_IN, cloud_connected := true
          token_file := none, top_label := "Logged in" }
        (.ok (some []))).state.cloud_state = CloudState.LOGGED_IN
    ∧ (MyApp.update_cloud_state
        { cloud_state := .LOGGED_IN, cloud_connected := true
          token_file := none, top_label := "Logged in" }
        (.ok (some []))).state.cloud_state ≠ CloudState.LOGGED_OUT := by
  decide

/-- C2 (amended): on every refresh, if the device-list lookup returns a
list with at least one device the state becomes LOGGED_IN (`connected =
true`); it becomes LOGGED_OUT on a `None` result or on a `ValueError`
(auth error) — and an empty list ALSO yields LOGGED_IN, since the code
distinguishes only `None`, not emptiness.  The display-side refresh
`BambuDisplay.update_cloud_state`, by contrast, sets its connected flag
exactly when the returned list is non-empty. -/
theorem c2_refresh_amended :
    ∀ (s : MyAppState) (devs : List Nat),
      (MyApp.update_cloud_state s (.ok (some devs))).state.cloud_state = CloudState.LOGGED_IN
      ∧ (MyApp.update_cloud_state s (.ok (some devs))).state.cloud_connected = true
      ∧ (MyApp.update_cloud_state s (.ok none)).state.cloud_state = CloudState.LOGGED_OUT
      ∧ (MyApp.update_cloud_state s (.ok none)).state.cloud_connected = false
      ∧ (MyApp.update_cloud_state s .valueError).state.cloud_state = CloudState.LOGGED_OUT
      ∧ (MyApp.update_cloud_state s .valueError).state.cloud_connected = false
      ∧ (BambuDisplay.update_cloud_state (.ok (some devs))).1 = decide (devs.length > 0)
      ∧ (BambuDisplay.update_cloud_state (.ok none)).1 = false
      ∧ (BambuDisplay.update_cloud_state .valueError).1 = false :=
  fun _ _ => ⟨rfl, rfl, rfl, rfl, rfl, rfl, rfl, rfl, rfl⟩

/-- C3 is right and the code is wrong (code bug): on
`EmailCodeIncorrectError` the handler `MyApp.enter_code_button_pressed`
never leaves the LOGGING_IN state it entered on line 167 — the
`except` arm on lines 186-187 sets the label but calls no
`set_cloud_state`, and the trailing `update_ui()` then overwrites the
error message with the LOGGING_IN spinner text.  Evaluated at the
failing input (prior state CODE_SENT, token file containing `7`,
verification raising the incorrect-code error): the state ends
LOGGING_IN, not CODE_SENT; the parts of the claim about the token are
nevertheless true in general — no token is written, the prior token file
is unchanged, and no new code is requested. -/
theorem c3_incorrect_code :
    (MyApp.enter_code_button_pressed .emailCodeIncorrectError
        { cloud_state := .CODE_SENT, cloud_connected := false
          token_file := some 7, top_label := "Enter authentication code" }
      = { state :=
            { cloud_state := .LOGGING_IN, cloud_connected := false
              token_file := some 7, top_label := "Logging in" }
          code_requested := false })
    ∧ (∀ s : MyAppState,
        (MyApp.enter_code_button_pressed .emailCodeIncorrectError s).state.cloud_state
            = CloudState.LOGGING_IN
        ∧ (MyApp.enter_code_button_pressed .emailCodeIncorrectError s).state.token_file
            = s.token_file
        ∧ (MyApp.enter_code_button_pressed .emailCodeIncorrectError s).code_requested
            = false) :=
  ⟨by decide, fun _ => ⟨rfl, rfl, rfl⟩⟩

/-- Counterexample to C4 as stated: a successful `login` call.  The claim
requires the state to become LOGGED_IN, but the `try` block of
`MyApp.login_button_pressed` (lines 144-152) contains no success branch:
when `login` returns normally, no `set_cloud_state` runs and the state
stays LOGGED_OUT. -/
theorem c4_counterexample :
    (MyApp.login_button_pressed .ok
        { cloud_state := .LOGGED_OUT, cloud_connected := false
          token_file := none, top_label := "Logged out" }).state.cloud_state
      = CloudState.LOGGED_OUT
    ∧ (MyApp.login_button_pressed .ok
        { cloud_state := .LOGGED_OUT, cloud_connected := false
          token_file := none, top_label := "Logged out" }).state.cloud_state
      ≠ CloudState.LOGGED_IN := by
  decide

/-- C4 (amended): for a user log-in action (from LOGGED_OUT or BLOCKED —
the handler in fact behaves the same from every state): on a
Cloudflare-block error the state becomes BLOCKED; on a
verification-required error it becomes CODE_SENT and a send-code side
effect is triggered; but on SUCCESS no transition occurs — the state,
connected flag and token file are left unchanged and only the UI is
refreshed. -/
theorem c4_login_amended :
    ∀ s : MyAppState,
      (MyApp.login_button_pressed .ok s).state.cloud_state = s.cloud_state
      ∧ (MyApp.login_button_pressed .ok s).state.cloud_connected = s.cloud_connected
      ∧ (MyApp.login_button_pressed .ok s).state.token_file = s.token_file
      ∧ (MyApp.login_button_pressed .ok s).code_requested = false
      ∧ (MyApp.login_button_pressed .cloudflareError s).state.cloud_state = CloudState.BLOCKED
      ∧ (MyApp.login_button_pressed .cloudflareError s).code_requested = false
      ∧ (MyApp.login_button_pressed .emailCodeRequiredError s).state.cloud_state
          = CloudState.CODE_SENT
      ∧ (MyApp.login_button_pressed .emailCodeRequiredError s).code_requested = true :=
  fun _ => ⟨rfl, rfl, rfl, rfl, rfl, rfl, rfl, rfl⟩

/-- Counterexample to C5 as stated: `MyApp.set_cloud_state` writes the
state (line 56) and the connected flag (line 57) in two separate
unsynchronised assignments, so the pair is NOT updated in one atomic
operation.  Concretely, transitioning LOGGED_IN → LOGGED_OUT, the state
visible between the two lines has `connected = true` with a state other
than LOGGED_IN — exactly the combination the claim says no reader can
observe. -/
theorem c5_counterexample :
    (MyApp.set_cloud_state_line56
        { cloud_state := .LOGGED_IN, cloud_connected := true
          token_file := none, top_label := "Logged in" }
        .LOGGED_OUT).cloud_connected = true
    ∧ (MyApp.set_cloud_state_line56
        { cloud_state := .LOGGED_IN, cloud_connected := true
          token_file := none, top_label := "Logged in" }
        .LOGGED_OUT).cloud_state ≠ CloudState.LOGGED_IN := by
  decide

/-- C5 (amended): after every COMPLETED `set_cloud_state` call the
derived flag satisfies `connected = (state == LOGGED_IN)` and the state
equals the requested one; but the two fields are written by two separate
assignments with no lock, and the intermediate state (line 56 done,
line 57 pending) still carries the previous connected flag — a reader
interleaved between the two assignments can therefore observe a stale
combination. -/
theorem c5_connected_invariant_amended :
    ∀ (s : MyAppState) (ns : CloudState),
      (MyApp.set_cloud_state s ns).cloud_connected
          = decide ((MyApp.set_cloud_state s ns).cloud_state = CloudState.LOGGED_IN)
      ∧ (MyApp.set_cloud_state s ns).cloud_state = ns
      ∧ (MyApp.set_cloud_state s ns).token_file = s.token_file
      ∧ (MyApp.set_cloud_state_line56 s ns).cloud_state = ns
      ∧ (MyApp.set_cloud_state_line56 s ns).cloud_connected = s.cloud_connected :=
  fun _ _ => ⟨rfl, rfl, rfl, rfl, rfl⟩

/-- Counterexample to C6 as stated: a transient parse failure during the
device-list lookup (`json` decode errors subclass `ValueError`, the one
exception the handler catches) moves a prior LOGGED_IN to LOGGED_OUT —
the refresh treats it exactly like an explicit auth rejection instead of
leaving the state unchanged. -/
theorem c6_counterexample :
    (MyApp.update_cloud_state
        { cloud_state := .LOGGED_IN, cloud_connected := true
          token_file := some 7, top_label := "Logged in" }
        .valueError).state.cloud_state = CloudState.LOGGED_OUT
    ∧ (MyApp.update_cloud_state
        { cloud_state := .LOGGED_IN, cloud_connected := true
          token_file := some 7, top_label := "Logged in" }
        .valueError).state.cloud_state ≠ CloudState.LOGGED_IN := by
  decide

/-- C6 (amended): the periodic refresh DOES downgrade LOGGED_IN on a
failed lookup, whatever the failure: it first sets UNKNOWN, then any
`ValueError` (explicit auth rejection and parse error alike) yields
LOGGED_OUT regardless of the prior state, and any other exception
propagates out of the refresh leaving the state UNKNOWN with
`connected = false`.  The code draws no distinction between transient
lookup failures and explicit auth rejections, and never preserves a
prior LOGGED_IN across a failed refresh. -/
theorem c6_refresh_failure_amended :
    ∀ s : MyAppState,
      (MyApp.update_cloud_state s .valueError).state.cloud_state = CloudState.LOGGED_OUT
      ∧ (MyApp.update_cloud_state s .valueError).propagated = false
      ∧ (MyApp.update_cloud_state s .otherError).state.cloud_state = CloudState.UNKNOWN
      ∧ (MyApp.update_cloud_state s .otherError).state.cloud_connected = false
      ∧ (MyApp.update_cloud_state s .otherError).propagated = true :=
  fun _ => ⟨rfl, rfl, rfl, rfl, rfl⟩

/-- C10: every call to `MyApp.update_cloud_state` factors through
line 61, which sets the state to UNKNOWN — and hence `connected` to
`false` — before the device-list lookup runs, whatever the prior state;
concretely, a refresh from LOGGED_IN that finds one device ends in
LOGGED_IN again, yet the state published between line 61 and the final
transition had `connected = false` — a mid-refresh reader can observe a
disconnected display even when both endpoints are LOGGED_IN. -/
theorem c10_refresh_sets_unknown_first :
    (∀ (s : MyAppState) (r : MyApp.DeviceListResult),
        MyApp.update_cloud_state s r
          = MyApp.update_cloud_state_lookup (MyApp.update_cloud_state_line61 s) r)
    ∧ (∀ s : MyAppState,
        (MyApp.update_cloud_state_line61 s).cloud_state = CloudState.UNKNOWN
        ∧ (MyApp.update_cloud_state_line61 s).cloud_connected = false)
    ∧ (MyApp.update_cloud_state
        { cloud_state := .LOGGED_IN, cloud_connected := true
          token_file := none, top_label := "Logged in" }
        (.ok (some [0]))).state.cloud_state = CloudState.LOGGED_IN :=
  ⟨fun _ _ => rfl, fun _ => ⟨rfl, rfl⟩, rfl⟩
